import Mathlib

/-!
Verification of the Pico-RTOS configuration resolution-and-emission pipeline
(`scripts/menuconfig.py`).  The Python tool wraps the external `kconfiglib`
schema engine; its own logic is: resolving symbol values from a schema plus an
optional override file, rendering the resolution as a CMake variable file and a
C header, and the lifecycle commands show / generate / save-defconfig /
load-defconfig.  Here the data model and those operations are embedded as
executable Lean functions, and the specified properties are proved about them.
-/

/-- Symbol kinds, mirroring `kconfiglib`'s BOOL, TRISTATE, INT, HEX, STRING
type constants.  `UNKNOWN` stands for any other type the schema engine can
produce (in `kconfiglib`, untyped symbols have type `UNKNOWN`); the renderers
in `generate_config` have no branch for it. -/
inductive SymType where
  | BOOL
  | TRISTATE
  | INT
  | HEX
  | STRING
  | UNKNOWN
deriving DecidableEq, Repr

/-- A resolved configuration symbol: `name` and the schema engine's canonical
textual value `str_value` (mirroring `sym.name`, `sym.type`, `sym.str_value`
used by `generate_config`). -/
structure ConfigSymbol where
  name : String
  type : SymType
  str_value : String
deriving DecidableEq, Repr

/-- Version constant `PICO_RTOS_VERSION` from the script. -/
def PICO_RTOS_VERSION : String := "0.3.1"

/-- One CMake line per symbol, from the first rendering loop of
`generate_config` (menuconfig.py lines 133-142): BOOL/TRISTATE render
`set(CONFIG_<name> ON)` when `str_value = "y"` and `OFF` otherwise; INT/HEX
render the value verbatim; STRING renders the value double-quoted; any other
type falls through the `if`/`elif` chain and emits nothing (`none`). -/
def cmakeLine (s : ConfigSymbol) : Option String :=
  match s.type with
  | SymType.BOOL | SymType.TRISTATE =>
      if s.str_value = "y" then
        some ("set(CONFIG_" ++ s.name ++ " ON)")
      else
        some ("set(CONFIG_" ++ s.name ++ " OFF)")
  | SymType.INT | SymType.HEX =>
      some ("set(CONFIG_" ++ s.name ++ " " ++ s.str_value ++ ")")
  | SymType.STRING =>
      some ("set(CONFIG_" ++ s.name ++ " \"" ++ s.str_value ++ "\")")
  | SymType.UNKNOWN => none

/-- One header line per symbol, from the second rendering loop of
`generate_config` (menuconfig.py lines 154-170): BOOL renders `#define` when
`"y"` and a commented `#undef` otherwise; TRISTATE additionally renders the
`_MODULE` macro when `"m"`; INT/HEX render the value verbatim; STRING renders
it double-quoted; any other type emits nothing. -/
def headerLine (s : ConfigSymbol) : Option String :=
  match s.type with
  | SymType.BOOL =>
      if s.str_value = "y" then
        some ("#define CONFIG_" ++ s.name ++ " 1")
      else
        some ("/* #undef CONFIG_" ++ s.name ++ " */")
  | SymType.TRISTATE =>
      if s.str_value = "y" then
        some ("#define CONFIG_" ++ s.name ++ " 1")
      else if s.str_value = "m" then
        some ("#define CONFIG_" ++ s.name ++ "_MODULE 1")
      else
        some ("/* #undef CONFIG_" ++ s.name ++ " */")
  | SymType.INT | SymType.HEX =>
      some ("#define CONFIG_" ++ s.name ++ " " ++ s.str_value)
  | SymType.STRING =>
      some ("#define CONFIG_" ++ s.name ++ " \"" ++ s.str_value ++ "\"")
  | SymType.UNKNOWN => none


/-- Schema-side view of a symbol.  Modelled from the spec: the schema itself
(symbol names, kinds, computed defaults) is produced by the external
`kconfiglib` engine, which is outside this repository; per the spec a schema
is the declaration-ordered list of symbols with their types and defaults. -/
structure SchemaSym where
  name : String
  type : SymType
  default : String
deriving DecidableEq, Repr

/-- Assoc-list lookup of the first assignment to key `k`. -/
def lookupA : List (String × String) → String → Option String
  | [], _ => none
  | p :: rest, k => if k = p.1 then some p.2 else lookupA rest k

/-- Modelled from the spec: the schema engine's resolution (`applyOverride`,
i.e. `kconf.load_config` over the loaded schema) is external to this
repository; per the spec it overlays the override assignments onto the schema
defaults, with every schema symbol appearing exactly once in declaration
order. -/
def resolveConfig (schema : List SchemaSym) (ov : List (String × String)) :
    List ConfigSymbol :=
  schema.map (fun d =>
    { name := d.name, type := d.type,
      str_value := (lookupA ov d.name).getD d.default })

/-- Modelled from the spec: `kconf.write_min_config` lives in the external
schema engine; per the spec it persists only the symbols whose resolved value
differs from the schema-computed default. -/
def write_min_config : List SchemaSym → List (String × String) →
    List (String × String)
  | [], _ => []
  | d :: rest, ov =>
      let v := (lookupA ov d.name).getD d.default
      if v = d.default then write_min_config rest ov
      else (d.name, v) :: write_min_config rest ov

/-- Modelled from the spec: `kconf.write_config` (external engine) persists
every resolved symbol of the configuration as an assignment. -/
def write_full_config (cfg : List ConfigSymbol) : List (String × String) :=
  cfg.map (fun s => (s.name, s.str_value))

/-- Contents of a file in the model filesystem.  Artifact files are plain
text; override/defconfig files are kept at the assignment level, because their
textual serialization and parsing live inside the external schema engine. -/
inductive FileData where
  | text (s : String)
  | assigns (ps : List (String × String))
deriving DecidableEq, Repr

/-- The model filesystem: newest-first association of paths to contents. -/
abbrev FSys := List (String × FileData)

/-- Contents currently at a path. -/
def fsLookup : FSys → String → Option FileData
  | [], _ => none
  | p :: rest, q => if q = p.1 then some p.2 else fsLookup rest q

/-- File existence test (`Path.exists()` in the script). -/
def fexists (fs : FSys) (p : String) : Bool := (fsLookup fs p).isSome

/-- Read a text file (empty if absent or not text). -/
def readText (fs : FSys) (p : String) : String :=
  match fsLookup fs p with
  | some (FileData.text s) => s
  | _ => ""

/-- Read an assignment-format (config) file (empty if absent or not one). -/
def readAssigns (fs : FSys) (p : String) : List (String × String) :=
  match fsLookup fs p with
  | some (FileData.assigns ps) => ps
  | _ => []

/-- Whole-file replacing write (`open(path, "w")` semantics). -/
def fsWrite (fs : FSys) (p : String) (d : FileData) : FSys := (p, d) :: fs

/-- The three overridable artifact paths of the path resolver
(`get_config_file`, `get_cmake_config_file`, `get_header_config_file`),
resolved relative to the project root. -/
structure ArtifactPaths where
  configPath : String
  cmakePath : String
  headerPath : String
deriving DecidableEq, Repr

/-- Path-resolver defaults (`DEFAULT_CONFIG_FILE`, `DEFAULT_CMAKE_FILE`,
`DEFAULT_HEADER_FILE`). -/
def defaultPaths : ArtifactPaths :=
  { configPath := ".config", cmakePath := "cmake_config.cmake",
    headerPath := "include/pico_rtos_config.h" }

/-- The fixed schema location `PROJECT_ROOT / "Kconfig"`. -/
def kconfigPath : String := "Kconfig"

/-- The fixed minimal-config output path `PROJECT_ROOT / "defconfig"` used by
`save_defconfig`. -/
def defconfigOutPath : String := "defconfig"

/-- First minimal-config candidate checked by `load_defconfig`:
`PROJECT_ROOT / "config" / "defconfig"`. -/
def defconfigCandidate1 : String := "config/defconfig"

/-- Second candidate: root-level `PROJECT_ROOT / "defconfig"`. -/
def defconfigCandidate2 : String := "defconfig"

/-- Join lines, each with the trailing newline of the script's
`f.write(... + "\n")` calls. -/
def joinLines (ls : List String) : String :=
  String.join (ls.map (fun l => l ++ "\n"))

/-- The CMake artifact text written by `generate_config`: two banner comment
lines, a blank line, then one line per renderable symbol in configuration
order. -/
def cmakeFile (cfg : List ConfigSymbol) : String :=
  joinLines
    (["# Generated CMake configuration for Pico-RTOS v" ++ PICO_RTOS_VERSION,
      "# This file is auto-generated. Do not edit manually.", ""]
      ++ cfg.filterMap cmakeLine)

/-- The header artifact text written by `generate_config`: banner, include
guard, one line per renderable symbol in configuration order, guard close. -/
def headerFile (cfg : List ConfigSymbol) : String :=
  joinLines
    (["/* Generated configuration header for Pico-RTOS v"
        ++ PICO_RTOS_VERSION ++ " */",
      "/* This file is auto-generated. Do not edit manually. */", "",
      "#ifndef PICO_RTOS_CONFIG_H", "#define PICO_RTOS_CONFIG_H", ""]
      ++ cfg.filterMap headerLine
      ++ ["", "#endif /* PICO_RTOS_CONFIG_H */"])

/-- Result of one lifecycle command: the Python function's boolean return
value, the filesystem after its writes, and the lines it printed. -/
structure CmdResult where
  ok : Bool
  fs : FSys
  out : List String
deriving DecidableEq, Repr

/-- `generate_config` (menuconfig.py lines 104-183): fail when the Kconfig
schema file is missing; otherwise load the schema, overlay the override file
when it exists (warn otherwise), and write the CMake artifact then the header
artifact.  The schema load `kconfiglib.Kconfig(...)` is abstracted as the
`parse` argument (external engine). -/
def generate_config (parse : String → List SchemaSym) (P : ArtifactPaths)
    (fs : FSys) : CmdResult :=
  if fexists fs kconfigPath = false then
    { ok := false, fs := fs,
      out := ["Error: Kconfig file not found at " ++ kconfigPath] }
  else
    let schema := parse (readText fs kconfigPath)
    let ov := if fexists fs P.configPath then readAssigns fs P.configPath else []
    let warn :=
      if fexists fs P.configPath then ([] : List String)
      else ["Warning: " ++ P.configPath ++ " not found, using defaults"]
    let cfg := resolveConfig schema ov
    let fs1 := fsWrite fs P.cmakePath (FileData.text (cmakeFile cfg))
    let fs2 := fsWrite fs1 P.headerPath (FileData.text (headerFile cfg))
    { ok := true, fs := fs2,
      out := warn ++ ["Configuration files generated successfully:",
                      "  - " ++ P.cmakePath, "  - " ++ P.headerPath] }

/-- The whitespace set of Python `str.strip()`. -/
def isPySpace (c : Char) : Bool :=
  c = ' ' || c = '\t' || c = '\n' || c = '\r'
    || c = Char.ofNat 11 || c = Char.ofNat 12

/-- Strip leading and trailing whitespace of a character list
(`line.strip()`). -/
def stripChars (l : List Char) : List Char :=
  ((l.dropWhile isPySpace).reverse.dropWhile isPySpace).reverse

/-- Split a character list at newlines (the `for line in f` iteration; the
newline each Python line carries is immaterial here because every line is
stripped afterwards). -/
def splitNl : List Char → List (List Char)
  | [] => [[]]
  | c :: cs =>
      if c = '\n' then [] :: splitNl cs
      else
        match splitNl cs with
        | [] => [[c]]
        | l :: ls => (c :: l) :: ls

/-- The lines of a text file as the read loop of `show_config` sees them. -/
def pyLines (s : String) : List (List Char) := splitNl s.data

/-- The stripped, non-blank, non-comment lines printed by `show_config`. -/
def showBody (content : String) : List String :=
  (pyLines content).filterMap (fun l =>
    match stripChars l with
    | [] => none
    | c :: t => if c = '#' then none else some (String.mk (c :: t)))

/-- `show_config` (menuconfig.py lines 185-200): fail when no file exists at
the config path; otherwise print a banner and then each stripped non-blank,
non-comment line of the file. -/
def show_config (P : ArtifactPaths) (fs : FSys) : CmdResult :=
  if fexists fs P.configPath = false then
    { ok := false, fs := fs,
      out := ["No configuration found at " ++ P.configPath ++
              ". Run make menuconfig first."] }
  else
    { ok := true, fs := fs,
      out := ["Pico-RTOS v" ++ PICO_RTOS_VERSION ++ " Configuration:",
              "Config file: " ++ P.configPath,
              String.mk (List.replicate 50 '=')]
             ++ showBody (readText fs P.configPath) }

/-- `save_defconfig` (menuconfig.py lines 202-231): fail when the schema file
is missing; fail when the full override file is missing; otherwise resolve and
ask the engine for the minimal diff, written to the fixed `defconfig` path. -/
def save_defconfig (parse : String → List SchemaSym) (P : ArtifactPaths)
    (fs : FSys) : CmdResult :=
  if fexists fs kconfigPath = false then
    { ok := false, fs := fs,
      out := ["Error: Kconfig file not found at " ++ kconfigPath] }
  else if fexists fs P.configPath = false then
    { ok := false, fs := fs,
      out := ["Error: " ++ P.configPath ++ " not found"] }
  else
    let schema := parse (readText fs kconfigPath)
    let ov := readAssigns fs P.configPath
    let fs1 := fsWrite fs defconfigOutPath
        (FileData.assigns (write_min_config schema ov))
    { ok := true, fs := fs1,
      out := ["Minimal configuration saved to " ++ defconfigOutPath] }

/-- `load_defconfig` (menuconfig.py lines 233-275): pick `config/defconfig`
when it exists and the root-level `defconfig` otherwise; fail when the schema
file is missing; load the chosen minimal file when it exists (warn otherwise),
write the full resolution to the config path, and chain into
`generate_config`. -/
def load_defconfig (parse : String → List SchemaSym) (P : ArtifactPaths)
    (fs : FSys) : CmdResult :=
  let dpath := if fexists fs defconfigCandidate1 then defconfigCandidate1
               else defconfigCandidate2
  if fexists fs kconfigPath = false then
    { ok := false, fs := fs,
      out := ["Error: Kconfig file not found at " ++ kconfigPath] }
  else
    let schema := parse (readText fs kconfigPath)
    let ov := if fexists fs dpath then readAssigns fs dpath else []
    let msg := if fexists fs dpath then ["Configuration loaded from " ++ dpath]
               else ["No defconfig found, using Kconfig defaults"]
    let cfg := resolveConfig schema ov
    let fs1 := fsWrite fs P.configPath
        (FileData.assigns (write_full_config cfg))
    let r := generate_config parse P fs1
    { ok := r.ok, fs := r.fs,
      out := msg ++ ["Configuration written to " ++ P.configPath] ++ r.out }

/-- A concrete stand-in for the external schema parser, used to instantiate
the lifecycle theorems: it returns the three symbols of the spec's worked
example regardless of the schema text. -/
def sampleParse : String → List SchemaSym := fun _ =>
  [{ name := "BUILD_EXAMPLES", type := SymType.BOOL, default := "n" },
   { name := "MAX_TASKS", type := SymType.INT, default := "8" },
   { name := "DEVICE_NAME", type := SymType.STRING, default := "pico" }]

/-- A filesystem containing only a schema file. -/
def fsSchemaOnly : FSys := [("Kconfig", FileData.text "schema")]

/-- A filesystem with a schema file and a full override file at the default
config path. -/
def fsSchemaAndConfig : FSys :=
  [("Kconfig", FileData.text "schema"),
   (".config", FileData.assigns [("BUILD_EXAMPLES", "y")])]

/-- Reading back the path just written finds the new contents. -/
theorem fsLookup_write_self (fs : FSys) (p : String) (d : FileData) :
    fsLookup (fsWrite fs p d) p = some d := by
  simp [fsWrite, fsLookup]

/-- Reading a different path is unaffected by a write. -/
theorem fsLookup_write_other (fs : FSys) (p q : String) (d : FileData)
    (h : q ≠ p) : fsLookup (fsWrite fs p d) q = fsLookup fs q := by
  simp [fsWrite, fsLookup, h]

/-- A just-written file exists. -/
theorem fexists_write_self (fs : FSys) (p : String) (d : FileData) :
    fexists (fsWrite fs p d) p = true := by
  simp [fexists, fsLookup_write_self]

/-- Existence of a different path is unaffected by a write. -/
theorem fexists_write_other (fs : FSys) (p q : String) (d : FileData)
    (h : q ≠ p) : fexists (fsWrite fs p d) q = fexists fs q := by
  simp [fexists, fsLookup_write_other fs p q d h]

/-- Reading back a just-written text file gives the text. -/
theorem readText_write_self (fs : FSys) (p : String) (s : String) :
    readText (fsWrite fs p (FileData.text s)) p = s := by
  simp [readText, fsLookup_write_self]

/-- Reading a different text file is unaffected by a write. -/
theorem readText_write_other (fs : FSys) (p q : String) (d : FileData)
    (h : q ≠ p) : readText (fsWrite fs p d) q = readText fs q := by
  simp [readText, fsLookup_write_other fs p q d h]

/-- Reading back a just-written assignment file gives the assignments. -/
theorem readAssigns_write_self (fs : FSys) (p : String)
    (ps : List (String × String)) :
    readAssigns (fsWrite fs p (FileData.assigns ps)) p = ps := by
  simp [readAssigns, fsLookup_write_self]

/-- Reading a different assignment file is unaffected by a write. -/
theorem readAssigns_write_other (fs : FSys) (p q : String) (d : FileData)
    (h : q ≠ p) : readAssigns (fsWrite fs p d) q = readAssigns fs q := by
  simp [readAssigns, fsLookup_write_other fs p q d h]


/-- Character-level view of string append (String is a structure over
`List Char`). -/
theorem string_append_data (a b : String) : (a ++ b).data = a.data ++ b.data := rfl

/-- Length distributes over string append. -/
theorem string_length_append (a b : String) :
    (a ++ b).length = a.length + b.length := by
  show (a ++ b).data.length = a.data.length + b.data.length
  rw [string_append_data, List.length_append]

/-- Strings of different lengths are different. -/
theorem string_ne_of_length_ne {a b : String} (h : a.length ≠ b.length) :
    a ≠ b := by
  intro he
  exact h (by rw [he])

/-- The `_MODULE` macro line differs from the base macro line (the suffix
lengths differ). -/
theorem module_line_ne_base_line (n : String) :
    ("#define CONFIG_" ++ n ++ "_MODULE 1") ≠ ("#define CONFIG_" ++ n ++ " 1") := by
  apply string_ne_of_length_ne
  simp only [string_length_append]
  have h1 : ("_MODULE 1" : String).length = 9 := rfl
  have h2 : (" 1" : String).length = 2 := rfl
  omega

/-- The commented `#undef` line differs from the base `#define` line. -/
theorem undef_line_ne_define_line (n : String) :
    ("/* #undef CONFIG_" ++ n ++ " */") ≠ ("#define CONFIG_" ++ n ++ " 1") := by
  apply string_ne_of_length_ne
  simp only [string_length_append]
  have h1 : ("/* #undef CONFIG_" : String).length = 17 := rfl
  have h2 : (" */" : String).length = 3 := rfl
  have h3 : ("#define CONFIG_" : String).length = 15 := rfl
  have h4 : (" 1" : String).length = 2 := rfl
  omega

/-- The `OFF` CMake line differs from the `ON` line. -/
theorem off_line_ne_on_line (n : String) :
    ("set(CONFIG_" ++ n ++ " OFF)") ≠ ("set(CONFIG_" ++ n ++ " ON)") := by
  apply string_ne_of_length_ne
  simp only [string_length_append]
  have h1 : (" OFF)" : String).length = 5 := rfl
  have h2 : (" ON)" : String).length = 4 := rfl
  omega

/-- Claim C1: for every resolved configuration and every symbol in it, the header
renderer emits one entry determined by kind and value: BOOL `"y"` gives
`#define CONFIG_<name> 1`, BOOL otherwise the commented `#undef`; TRISTATE
`"y"` gives the base define, `"m"` gives `#define CONFIG_<name>_MODULE 1`
without defining the base macro, anything else the commented `#undef`; INT and
HEX emit the value verbatim; STRING emits the value double-quoted. -/
theorem header_renderer_cases (cfg : List ConfigSymbol) (s : ConfigSymbol)
    (hs : s ∈ cfg) :
    (s.type = SymType.BOOL → s.str_value = "y" →
        headerLine s = some ("#define CONFIG_" ++ s.name ++ " 1")) ∧
    (s.type = SymType.BOOL → s.str_value ≠ "y" →
        headerLine s = some ("/* #undef CONFIG_" ++ s.name ++ " */")) ∧
    (s.type = SymType.TRISTATE → s.str_value = "y" →
        headerLine s = some ("#define CONFIG_" ++ s.name ++ " 1")) ∧
    (s.type = SymType.TRISTATE → s.str_value = "m" →
        headerLine s = some ("#define CONFIG_" ++ s.name ++ "_MODULE 1") ∧
        headerLine s ≠ some ("#define CONFIG_" ++ s.name ++ " 1")) ∧
    (s.type = SymType.TRISTATE → s.str_value ≠ "y" → s.str_value ≠ "m" →
        headerLine s = some ("/* #undef CONFIG_" ++ s.name ++ " */")) ∧
    ((s.type = SymType.INT ∨ s.type = SymType.HEX) →
        headerLine s = some ("#define CONFIG_" ++ s.name ++ " " ++ s.str_value)) ∧
    (s.type = SymType.STRING →
        headerLine s = some ("#define CONFIG_" ++ s.name ++ " \"" ++ s.str_value ++ "\"")) := by
  obtain ⟨n, t, v⟩ := s
  refine ⟨fun ht hv => ?_, fun ht hv => ?_, fun ht hv => ?_, fun ht hv => ?_,
    fun ht hy hm => ?_, fun ht => ?_, fun ht => ?_⟩
  · simp only at ht hv; subst ht; subst hv; simp [headerLine]
  · simp only at ht; subst ht; simp [headerLine, hv]
  · simp only at ht hv; subst ht; subst hv; simp [headerLine]
  · simp only at ht hv; subst ht; subst hv
    refine ⟨by simp [headerLine], ?_⟩
    simp only [headerLine]
    intro he
    rw [if_neg (by decide : ¬ ("m" : String) = "y")] at he; simp only [if_true] at he
    exact module_line_ne_base_line n (Option.some.inj he)
  · simp only at ht; subst ht; simp [headerLine, hy, hm]
  · simp only at ht
    rcases ht with ht | ht <;> subst ht <;> simp [headerLine]
  · simp only at ht; subst ht; simp [headerLine]

/-- Witness for C1 at the spec's own example: TRISTATE `DRIVER_X` resolved to
`"m"` emits the `_MODULE` macro and leaves the base macro undefined. -/
theorem header_renderer_cases_witness :
    headerLine ⟨"DRIVER_X", SymType.TRISTATE, "m"⟩
      = some ("#define CONFIG_" ++ "DRIVER_X" ++ "_MODULE 1") ∧
    headerLine ⟨"DRIVER_X", SymType.TRISTATE, "m"⟩
      ≠ some ("#define CONFIG_" ++ "DRIVER_X" ++ " 1") :=
  (header_renderer_cases [⟨"DRIVER_X", SymType.TRISTATE, "m"⟩]
    ⟨"DRIVER_X", SymType.TRISTATE, "m"⟩ (by decide)).2.2.2.1 rfl rfl

/-- Claim C2: for every resolved configuration and every symbol in it, the CMake
renderer emits one line: BOOL/TRISTATE render `set(CONFIG_<name> ON)` exactly
when the value is `"y"` and `OFF` for any other value; INT/HEX render the value
verbatim and unquoted; STRING renders it double-quoted. -/
theorem cmake_renderer_cases (cfg : List ConfigSymbol) (s : ConfigSymbol)
    (hs : s ∈ cfg) :
    ((s.type = SymType.BOOL ∨ s.type = SymType.TRISTATE) → s.str_value = "y" →
        cmakeLine s = some ("set(CONFIG_" ++ s.name ++ " ON)")) ∧
    ((s.type = SymType.BOOL ∨ s.type = SymType.TRISTATE) → s.str_value ≠ "y" →
        cmakeLine s = some ("set(CONFIG_" ++ s.name ++ " OFF)")) ∧
    ((s.type = SymType.INT ∨ s.type = SymType.HEX) →
        cmakeLine s = some ("set(CONFIG_" ++ s.name ++ " " ++ s.str_value ++ ")")) ∧
    (s.type = SymType.STRING →
        cmakeLine s = some ("set(CONFIG_" ++ s.name ++ " \"" ++ s.str_value ++ "\")")) := by
  obtain ⟨n, t, v⟩ := s
  refine ⟨fun ht hv => ?_, fun ht hv => ?_, fun ht => ?_, fun ht => ?_⟩
  · simp only at ht hv; subst hv
    rcases ht with ht | ht <;> subst ht <;> simp [cmakeLine]
  · simp only at ht
    rcases ht with ht | ht <;> subst ht <;> simp [cmakeLine, hv]
  · simp only at ht
    rcases ht with ht | ht <;> subst ht <;> simp [cmakeLine]
  · simp only at ht; subst ht; simp [cmakeLine]

/-- Witness for C2 at the spec's own example: BOOL `BUILD_EXAMPLES` resolved
to `"y"` renders `ON`. -/
theorem cmake_renderer_cases_witness :
    cmakeLine ⟨"BUILD_EXAMPLES", SymType.BOOL, "y"⟩
      = some ("set(CONFIG_" ++ "BUILD_EXAMPLES" ++ " ON)") :=
  (cmake_renderer_cases [⟨"BUILD_EXAMPLES", SymType.BOOL, "y"⟩]
    ⟨"BUILD_EXAMPLES", SymType.BOOL, "y"⟩ (by decide)).1 (Or.inl rfl) rfl

/-- Claim C3: for every BOOL or TRISTATE symbol of a resolved configuration, the
CMake renderer emits `ON` exactly when the header renderer defines the base
macro `CONFIG_<name>`; in the TRISTATE `"m"` case the CMake side is `OFF` and
the header defines only the separate `CONFIG_<name>_MODULE` macro. -/
theorem cross_format_consistency (cfg : List ConfigSymbol) (s : ConfigSymbol)
    (hs : s ∈ cfg)
    (ht : s.type = SymType.BOOL ∨ s.type = SymType.TRISTATE) :
    (cmakeLine s = some ("set(CONFIG_" ++ s.name ++ " ON)") ↔
        headerLine s = some ("#define CONFIG_" ++ s.name ++ " 1")) ∧
    (s.type = SymType.TRISTATE → s.str_value = "m" →
        cmakeLine s = some ("set(CONFIG_" ++ s.name ++ " OFF)") ∧
        headerLine s = some ("#define CONFIG_" ++ s.name ++ "_MODULE 1")) := by
  obtain ⟨n, t, v⟩ := s
  simp only at ht
  constructor
  · by_cases hv : v = "y"
    · subst hv
      rcases ht with ht | ht <;> subst ht <;> simp [cmakeLine, headerLine]
    · rcases ht with ht | ht <;> subst ht
      · simp only [cmakeLine, headerLine, hv, if_false, Option.some.injEq]
        constructor
        · intro he; exact absurd he (off_line_ne_on_line n)
        · intro he; exact absurd he (undef_line_ne_define_line n)
      · by_cases hm : v = "m"
        · subst hm
          constructor
          · intro he
            exfalso
            simp only [cmakeLine] at he
            rw [if_neg (by decide : ¬ ("m" : String) = "y")] at he
            exact off_line_ne_on_line n (Option.some.inj he)
          · intro he
            exfalso
            simp only [headerLine] at he
            rw [if_neg (by decide : ¬ ("m" : String) = "y")] at he; simp only [if_true] at he
            exact module_line_ne_base_line n (Option.some.inj he)
        · simp only [cmakeLine, headerLine, hv, hm, if_false, Option.some.injEq]
          constructor
          · intro he; exact absurd he (off_line_ne_on_line n)
          · intro he; exact absurd he (undef_line_ne_define_line n)
  · intro ht2 hm
    simp only at ht2 hm
    subst ht2; subst hm
    exact ⟨by simp [cmakeLine], by simp [headerLine]⟩

/-- Witness for C3: for BOOL `BUILD_EXAMPLES` at `"y"`, the `ON` CMake line
implies the header base define; for TRISTATE at `"m"`, `OFF` plus `_MODULE`. -/
theorem cross_format_consistency_witness :
    headerLine ⟨"BUILD_EXAMPLES", SymType.BOOL, "y"⟩
      = some ("#define CONFIG_" ++ "BUILD_EXAMPLES" ++ " 1") ∧
    cmakeLine ⟨"DRIVER_X", SymType.TRISTATE, "m"⟩
      = some ("set(CONFIG_" ++ "DRIVER_X" ++ " OFF)") :=
  ⟨((cross_format_consistency [⟨"BUILD_EXAMPLES", SymType.BOOL, "y"⟩]
      ⟨"BUILD_EXAMPLES", SymType.BOOL, "y"⟩ (by decide) (Or.inl rfl)).1).mp (by decide),
   ((cross_format_consistency [⟨"DRIVER_X", SymType.TRISTATE, "m"⟩]
      ⟨"DRIVER_X", SymType.TRISTATE, "m"⟩ (by decide) (Or.inr rfl)).2 rfl rfl).1⟩
/-- Claim C5: with no schema file present, `generate_config`, `save_defconfig` and
`load_defconfig` all report the missing schema, return failure, and leave the
filesystem untouched (no artifacts written). -/
theorem missing_schema_fatality (parse : String → List SchemaSym)
    (P : ArtifactPaths) (fs : FSys)
    (h : fexists fs kconfigPath = false) :
    (generate_config parse P fs).ok = false ∧
    (generate_config parse P fs).fs = fs ∧
    (save_defconfig parse P fs).ok = false ∧
    (save_defconfig parse P fs).fs = fs ∧
    (load_defconfig parse P fs).ok = false ∧
    (load_defconfig parse P fs).fs = fs := by
  simp [generate_config, save_defconfig, load_defconfig, h]

/-- Witness for C5 on the empty filesystem. -/
theorem missing_schema_fatality_witness :
    (generate_config sampleParse defaultPaths []).ok = false ∧
    (save_defconfig sampleParse defaultPaths []).fs = [] :=
  ⟨(missing_schema_fatality sampleParse defaultPaths [] rfl).1,
   (missing_schema_fatality sampleParse defaultPaths [] rfl).2.2.2.1⟩

/-- Claim C6: with the schema present but no override file at the config path,
`generate_config` warns, resolves every symbol to its pure schema default,
writes both artifacts, and succeeds. -/
theorem missing_override_fallback (parse : String → List SchemaSym)
    (P : ArtifactPaths) (fs : FSys)
    (hk : fexists fs kconfigPath = true)
    (hc : fexists fs P.configPath = false)
    (hd : P.cmakePath ≠ P.headerPath) :
    (generate_config parse P fs).ok = true ∧
    ("Warning: " ++ P.configPath ++ " not found, using defaults")
      ∈ (generate_config parse P fs).out ∧
    resolveConfig (parse (readText fs kconfigPath)) [] =
      (parse (readText fs kconfigPath)).map
        (fun d => { name := d.name, type := d.type, str_value := d.default }) ∧
    readText (generate_config parse P fs).fs P.cmakePath =
      cmakeFile (resolveConfig (parse (readText fs kconfigPath)) []) ∧
    readText (generate_config parse P fs).fs P.headerPath =
      headerFile (resolveConfig (parse (readText fs kconfigPath)) []) := by
  refine ⟨?_, ?_, ?_, ?_, ?_⟩
  · simp [generate_config, hk, hc]
  · simp [generate_config, hk, hc]
  · simp [resolveConfig, lookupA]
  · simp [generate_config, hk, hc,
      readText_write_other _ _ _ _ hd, readText_write_self]
  · simp [generate_config, hk, hc, readText_write_self]

/-- Witness for C6: schema file only, no `.config`. -/
theorem missing_override_fallback_witness :
    (generate_config sampleParse defaultPaths fsSchemaOnly).ok = true ∧
    ("Warning: " ++ ".config" ++ " not found, using defaults")
      ∈ (generate_config sampleParse defaultPaths fsSchemaOnly).out :=
  ⟨(missing_override_fallback sampleParse defaultPaths fsSchemaOnly rfl rfl
      (by decide)).1,
   (missing_override_fallback sampleParse defaultPaths fsSchemaOnly rfl rfl
      (by decide)).2.1⟩

/-- A non-UNKNOWN symbol always produces a CMake line. -/
theorem cmakeLine_isSome (t : ConfigSymbol) (ht : t.type ≠ SymType.UNKNOWN) :
    (cmakeLine t).isSome = true := by
  obtain ⟨n, k, v⟩ := t
  simp only at ht
  cases k
  · by_cases hv : v = "y" <;> simp [cmakeLine, hv]
  · by_cases hv : v = "y" <;> simp [cmakeLine, hv]
  · simp [cmakeLine]
  · simp [cmakeLine]
  · simp [cmakeLine]
  · exact absurd rfl ht

/-- A non-UNKNOWN symbol always produces a header line. -/
theorem headerLine_isSome (t : ConfigSymbol) (ht : t.type ≠ SymType.UNKNOWN) :
    (headerLine t).isSome = true := by
  obtain ⟨n, k, v⟩ := t
  simp only at ht
  cases k
  · by_cases hv : v = "y" <;> simp [headerLine, hv]
  · by_cases hv : v = "y" <;> by_cases hm : v = "m" <;>
      simp [headerLine, hv, hm]
  · simp [headerLine]
  · simp [headerLine]
  · simp [headerLine]
  · exact absurd rfl ht

/-- Claim C10: a symbol whose kind is none of the five rendered ones is silently
skipped by both renderers — it contributes no line to either artifact, the
artifacts are as if it were absent, and every other symbol still produces its
line. -/
theorem unknown_type_skipped (xs ys : List ConfigSymbol) (s : ConfigSymbol)
    (h : s.type = SymType.UNKNOWN) :
    cmakeLine s = none ∧
    headerLine s = none ∧
    (xs ++ s :: ys).filterMap cmakeLine = (xs ++ ys).filterMap cmakeLine ∧
    (xs ++ s :: ys).filterMap headerLine = (xs ++ ys).filterMap headerLine ∧
    cmakeFile (xs ++ s :: ys) = cmakeFile (xs ++ ys) ∧
    headerFile (xs ++ s :: ys) = headerFile (xs ++ ys) ∧
    (∀ t : ConfigSymbol, t.type ≠ SymType.UNKNOWN →
      (cmakeLine t).isSome = true ∧ (headerLine t).isSome = true) := by
  obtain ⟨n, k, v⟩ := s
  simp only at h
  subst h
  have hc : cmakeLine ⟨n, SymType.UNKNOWN, v⟩ = none := rfl
  have hh : headerLine ⟨n, SymType.UNKNOWN, v⟩ = none := rfl
  have hfc : (xs ++ ⟨n, SymType.UNKNOWN, v⟩ :: ys).filterMap cmakeLine
      = (xs ++ ys).filterMap cmakeLine := by
    simp [List.filterMap_append, List.filterMap_cons, hc]
  have hfh : (xs ++ ⟨n, SymType.UNKNOWN, v⟩ :: ys).filterMap headerLine
      = (xs ++ ys).filterMap headerLine := by
    simp [List.filterMap_append, List.filterMap_cons, hh]
  refine ⟨hc, hh, hfc, hfh, ?_, ?_, ?_⟩
  · simp [cmakeFile, hfc]
  · simp [headerFile, hfh]
  · intro t ht
    exact ⟨cmakeLine_isSome t ht, headerLine_isSome t ht⟩

/-- Witness for C10: an untyped symbol in the middle of the spec's worked
example changes neither artifact. -/
theorem unknown_type_skipped_witness :
    cmakeLine ⟨"MYSTERY", SymType.UNKNOWN, ""⟩ = none ∧
    cmakeFile [⟨"BUILD_EXAMPLES", SymType.BOOL, "y"⟩,
               ⟨"MYSTERY", SymType.UNKNOWN, ""⟩,
               ⟨"MAX_TASKS", SymType.INT, "8"⟩] =
      cmakeFile [⟨"BUILD_EXAMPLES", SymType.BOOL, "y"⟩,
                 ⟨"MAX_TASKS", SymType.INT, "8"⟩] :=
  ⟨(unknown_type_skipped [⟨"BUILD_EXAMPLES", SymType.BOOL, "y"⟩]
      [⟨"MAX_TASKS", SymType.INT, "8"⟩] ⟨"MYSTERY", SymType.UNKNOWN, ""⟩ rfl).1,
   (unknown_type_skipped [⟨"BUILD_EXAMPLES", SymType.BOOL, "y"⟩]
      [⟨"MAX_TASKS", SymType.INT, "8"⟩]
      ⟨"MYSTERY", SymType.UNKNOWN, ""⟩ rfl).2.2.2.2.1⟩

/-- Claim C9: `generate_config` is a deterministic function of the schema file and
override file contents alone: two runs over filesystems that agree on those
two inputs (and may differ anywhere else) produce byte-identical CMake and
header artifacts and the same outcome; moreover the symbol lines of each
artifact are emitted in configuration (schema declaration) order, as the
renderers distribute over list append. -/
theorem generate_config_deterministic (parse : String → List SchemaSym)
    (P : ArtifactPaths) (fsa fsb : FSys)
    (hk : fexists fsa kconfigPath = true)
    (hke : fexists fsa kconfigPath = fexists fsb kconfigPath)
    (hkc : readText fsa kconfigPath = readText fsb kconfigPath)
    (hce : fexists fsa P.configPath = fexists fsb P.configPath)
    (hcc : readAssigns fsa P.configPath = readAssigns fsb P.configPath)
    (hd : P.cmakePath ≠ P.headerPath) :
    (generate_config parse P fsa).ok = (generate_config parse P fsb).ok ∧
    readText (generate_config parse P fsa).fs P.cmakePath =
      readText (generate_config parse P fsb).fs P.cmakePath ∧
    readText (generate_config parse P fsa).fs P.headerPath =
      readText (generate_config parse P fsb).fs P.headerPath ∧
    (∀ c1 c2 : List ConfigSymbol,
      (c1 ++ c2).filterMap cmakeLine =
        c1.filterMap cmakeLine ++ c2.filterMap cmakeLine ∧
      (c1 ++ c2).filterMap headerLine =
        c1.filterMap headerLine ++ c2.filterMap headerLine) := by
  have hk2 : fexists fsb kconfigPath = true := hke ▸ hk
  refine ⟨?_, ?_, ?_, ?_⟩
  · simp [generate_config, hk, hk2]
  · simp [generate_config, hk, hk2, hkc, hce, hcc,
      readText_write_other _ _ _ _ hd, readText_write_self]
  · simp [generate_config, hk, hk2, hkc, hce, hcc, readText_write_self]
  · intro c1 c2
    exact ⟨List.filterMap_append _ _ _, List.filterMap_append _ _ _⟩

/-- Witness for C9: two filesystems sharing schema and override but differing
in an unrelated file generate identical CMake artifacts. -/
theorem generate_config_deterministic_witness :
    readText (generate_config sampleParse defaultPaths
        fsSchemaAndConfig).fs "cmake_config.cmake" =
      readText (generate_config sampleParse defaultPaths
        (("unrelated", FileData.text "x") :: fsSchemaAndConfig)).fs
        "cmake_config.cmake" :=
  (generate_config_deterministic sampleParse defaultPaths fsSchemaAndConfig
    (("unrelated", FileData.text "x") :: fsSchemaAndConfig)
    rfl rfl rfl rfl rfl (by decide)).2.1

/-- Claim C7: `load_defconfig` locates the minimal file by checking
`config/defconfig` then the root-level `defconfig`, uses the first that
exists, proceeds from pure schema defaults with a warning when neither does,
writes the fully resolved configuration to the override-file location, and
chains into `generate_config`, producing both artifacts and succeeding. -/
theorem load_defconfig_spec (parse : String → List SchemaSym)
    (P : ArtifactPaths) (fs : FSys)
    (hk : fexists fs kconfigPath = true)
    (h1 : P.configPath ≠ kconfigPath)
    (h2 : P.configPath ≠ P.cmakePath)
    (h3 : P.configPath ≠ P.headerPath)
    (h4 : P.cmakePath ≠ P.headerPath) :
    (load_defconfig parse P fs).ok = true ∧
    (fexists fs defconfigCandidate1 = false →
      fexists fs defconfigCandidate2 = false →
        "No defconfig found, using Kconfig defaults"
          ∈ (load_defconfig parse P fs).out ∧
        readAssigns (load_defconfig parse P fs).fs P.configPath =
          write_full_config
            (resolveConfig (parse (readText fs kconfigPath)) [])) ∧
    (fexists fs defconfigCandidate1 = true →
        readAssigns (load_defconfig parse P fs).fs P.configPath =
          write_full_config (resolveConfig (parse (readText fs kconfigPath))
            (readAssigns fs defconfigCandidate1))) ∧
    (fexists fs defconfigCandidate1 = false →
      fexists fs defconfigCandidate2 = true →
        readAssigns (load_defconfig parse P fs).fs P.configPath =
          write_full_config (resolveConfig (parse (readText fs kconfigPath))
            (readAssigns fs defconfigCandidate2))) ∧
    fexists (load_defconfig parse P fs).fs P.cmakePath = true ∧
    fexists (load_defconfig parse P fs).fs P.headerPath = true := by
  refine ⟨?_, fun hf1 hf2 => ?_, fun hf1 => ?_, fun hf1 hf2 => ?_, ?_, ?_⟩
  · simp [load_defconfig, generate_config, hk, fexists_write_other,
      fexists_write_self, Ne.symm h1]
  · simp [load_defconfig, generate_config, hk, hf1, hf2,
      fexists_write_other, fexists_write_self,
      readAssigns_write_other, readAssigns_write_self,
      Ne.symm h1, h2, h3]
  · simp [load_defconfig, generate_config, hk, hf1,
      fexists_write_other, fexists_write_self,
      readAssigns_write_other, readAssigns_write_self,
      Ne.symm h1, h2, h3]
  · simp [load_defconfig, generate_config, hk, hf1, hf2,
      fexists_write_other, fexists_write_self,
      readAssigns_write_other, readAssigns_write_self,
      Ne.symm h1, h2, h3]
  · simp [load_defconfig, generate_config, hk,
      fexists_write_other, fexists_write_self, Ne.symm h1, h4]
  · simp [load_defconfig, generate_config, hk,
      fexists_write_other, fexists_write_self, Ne.symm h1]

/-- Witness for C7: schema only, neither defconfig candidate present — the
warning is printed and both artifacts exist afterwards. -/
theorem load_defconfig_spec_witness :
    "No defconfig found, using Kconfig defaults"
      ∈ (load_defconfig sampleParse defaultPaths fsSchemaOnly).out ∧
    fexists (load_defconfig sampleParse defaultPaths fsSchemaOnly).fs
      "cmake_config.cmake" = true :=
  ⟨((load_defconfig_spec sampleParse defaultPaths fsSchemaOnly rfl (by decide)
      (by decide) (by decide) (by decide)).2.1 rfl rfl).1,
   (load_defconfig_spec sampleParse defaultPaths fsSchemaOnly rfl (by decide)
      (by decide) (by decide) (by decide)).2.2.2.2.1⟩

/-- A name that occurs nowhere in the schema gets no entry in the minimal
file. -/
theorem lookupA_write_min_none (ov : List (String × String)) (n : String) :
    ∀ schema : List SchemaSym, n ∉ schema.map SchemaSym.name →
      lookupA (write_min_config schema ov) n = none := by
  intro schema
  induction schema with
  | nil => intro _; rfl
  | cons a rest ih =>
    intro h
    simp only [List.map_cons, List.mem_cons, not_or] at h
    obtain ⟨h1, h2⟩ := h
    simp only [write_min_config]
    split
    · exact ih h2
    · simp only [lookupA]
      rw [if_neg h1]
      exact ih h2

/-- An overlay entry whose key names no schema symbol does not change the
resolution. -/
theorem resolveConfig_overlay_irrelevant (rest : List SchemaSym)
    (k v : String) (ps : List (String × String))
    (h : k ∉ rest.map SchemaSym.name) :
    resolveConfig rest ((k, v) :: ps) = resolveConfig rest ps := by
  unfold resolveConfig
  apply List.map_congr_left
  intro d hd
  have hne : d.name ≠ k := by
    intro he
    exact h (he ▸ List.mem_map_of_mem SchemaSym.name hd)
  simp [lookupA, hne]

/-- Core round-trip: resolving a schema against the minimal file produced
from an overlay gives back, symbol for symbol, the resolution of the original
overlay (schema names are unique per the spec's invariant). -/
theorem resolve_min_roundtrip (ov : List (String × String)) :
    ∀ schema : List SchemaSym, (schema.map SchemaSym.name).Nodup →
      resolveConfig schema (write_min_config schema ov) =
        resolveConfig schema ov := by
  intro schema
  induction schema with
  | nil => intro _; rfl
  | cons a rest ih =>
    intro hnd
    simp only [List.map_cons, List.nodup_cons] at hnd
    obtain ⟨hna, hnd2⟩ := hnd
    simp only [write_min_config]
    split
    case isTrue hv =>
      simp only [resolveConfig, List.map_cons, List.cons.injEq]
      refine ⟨?_, ?_⟩
      · rw [lookupA_write_min_none ov a.name rest hna]
        simp [hv]
      · exact ih hnd2
    case isFalse hv =>
      simp only [resolveConfig, List.map_cons, List.cons.injEq]
      refine ⟨?_, ?_⟩
      · simp [lookupA]
      · have hdrop :
            resolveConfig rest
              ((a.name, (lookupA ov a.name).getD a.default) ::
                write_min_config rest ov)
            = resolveConfig rest (write_min_config rest ov) :=
          resolveConfig_overlay_irrelevant rest a.name _ _ hna
        exact hdrop.trans (ih hnd2)

/-- Claim C4: `save_defconfig` then `load_defconfig` on the same schema round-trip:
the full configuration that `load_defconfig` writes back to the override-file
location assigns every symbol the value it had in the resolution that produced
the minimal file, and both commands succeed. -/
theorem save_load_roundtrip (parse : String → List SchemaSym)
    (P : ArtifactPaths) (fs : FSys)
    (hk : fexists fs kconfigPath = true)
    (hc : fexists fs P.configPath = true)
    (hnd : ((parse (readText fs kconfigPath)).map SchemaSym.name).Nodup)
    (hn1 : fexists fs defconfigCandidate1 = false)
    (h2 : P.configPath ≠ P.cmakePath)
    (h3 : P.configPath ≠ P.headerPath)
    (h5 : P.configPath ≠ kconfigPath) :
    (save_defconfig parse P fs).ok = true ∧
    (load_defconfig parse P (save_defconfig parse P fs).fs).ok = true ∧
    readAssigns (load_defconfig parse P (save_defconfig parse P fs).fs).fs
        P.configPath =
      write_full_config (resolveConfig (parse (readText fs kconfigPath))
        (readAssigns fs P.configPath)) := by
  simp only [kconfigPath, defconfigOutPath, defconfigCandidate1,
    defconfigCandidate2] at hk hc hnd hn1 h5 ⊢
  have hrt := resolve_min_roundtrip (readAssigns fs P.configPath)
    (parse (readText fs "Kconfig")) hnd
  refine ⟨?_, ?_, ?_⟩
  · simp [save_defconfig, kconfigPath, defconfigOutPath, hk, hc]
  · simp [save_defconfig, load_defconfig, generate_config, kconfigPath,
      defconfigOutPath, defconfigCandidate1, defconfigCandidate2, hk, hc, hn1,
      fexists_write_self, fexists_write_other, readText_write_other,
      readAssigns_write_self, readAssigns_write_other, h5, Ne.symm h5]
  · simp [save_defconfig, load_defconfig, generate_config, kconfigPath,
      defconfigOutPath, defconfigCandidate1, defconfigCandidate2, hk, hc, hn1,
      fexists_write_self, fexists_write_other, readText_write_other,
      readAssigns_write_self, readAssigns_write_other, h2, h3, h5,
      Ne.symm h2, Ne.symm h3, Ne.symm h5, hrt]

/-- Witness for C4 on the spec's worked example: an override turning
`BUILD_EXAMPLES` on survives the minimal round-trip. -/
theorem save_load_roundtrip_witness :
    readAssigns (load_defconfig sampleParse defaultPaths
        (save_defconfig sampleParse defaultPaths fsSchemaAndConfig).fs).fs
      ".config" =
    write_full_config (resolveConfig (sampleParse "schema")
      [("BUILD_EXAMPLES", "y")]) :=
  (save_load_roundtrip sampleParse defaultPaths fsSchemaAndConfig rfl rfl
    (by decide) rfl (by decide) (by decide) (by decide)).2.2

/-- Claim C8 counterexample: for a config file whose single line `  FOO=1` carries
leading whitespace, that non-comment line is NOT printed verbatim by
`show_config` — only its stripped form `FOO=1` appears — so the claim as
stated fails, although the command succeeds. -/
theorem show_config_verbatim_cex :
    (pyLines (readText [(".config", FileData.text "  FOO=1")]
        defaultPaths.configPath)).map String.mk = ["  FOO=1"] ∧
    "  FOO=1" ∉ (show_config defaultPaths
        [(".config", FileData.text "  FOO=1")]).out ∧
    "FOO=1" ∈ (show_config defaultPaths
        [(".config", FileData.text "  FOO=1")]).out ∧
    (show_config defaultPaths [(".config", FileData.text "  FOO=1")]).ok
      = true := by decide

/-- Claim C8 (amended): `show_config` fails exactly when no file exists at the
resolved config path; when the file exists it succeeds and prints every line
whose stripped form is non-blank and does not start with `#`, stripped of
surrounding whitespace (not verbatim). -/
theorem show_config_spec (P : ArtifactPaths) (fs : FSys) :
    ((show_config P fs).ok = false ↔ fexists fs P.configPath = false) ∧
    (fexists fs P.configPath = true →
      ∀ l ∈ pyLines (readText fs P.configPath), ∀ c t,
        stripChars l = c :: t → c ≠ '#' →
          String.mk (c :: t) ∈ (show_config P fs).out) := by
  constructor
  · cases hf : fexists fs P.configPath
    · simp [show_config, hf]
    · simp [show_config, hf]
  · intro hf l hl c t hstrip hc
    have hmem : String.mk (c :: t) ∈ showBody (readText fs P.configPath) := by
      apply List.mem_filterMap.mpr
      refine ⟨l, hl, ?_⟩
      rw [hstrip]
      simp [hc]
    have hok : show_config P fs =
        { ok := true, fs := fs,
          out := ["Pico-RTOS v" ++ PICO_RTOS_VERSION ++ " Configuration:",
                  "Config file: " ++ P.configPath,
                  String.mk (List.replicate 50 '=')]
                 ++ showBody (readText fs P.configPath) } := by
      simp [show_config, hf]
    rw [hok]
    exact List.mem_append.mpr (Or.inr hmem)

/-- Witness for C8 (amended): with a comment line and an assignment line, the
assignment is printed stripped. -/
theorem show_config_spec_witness :
    String.mk ('F' :: "OO=y".data) ∈
      (show_config defaultPaths
        [(".config", FileData.text "# c\nFOO=y")]).out :=
  (show_config_spec defaultPaths [(".config", FileData.text "# c\nFOO=y")]).2
    rfl ("FOO=y".data) (by decide) 'F' ("OO=y".data) (by decide) (by decide)
